import Mathlib

/-!
# A verification development for the `vips` Go binding (package `vips`)

The Go sources `bridge.go`, `vips_type.go`, `vips.go` and `util.go` are embedded
shallowly:

* a Go `byte` is a `Fin 256`, a `[]byte` is a `List Byte`;
* a Go `int` (64 bits wide) is an `Int`; the cgo conversion `C.int(x)` is the
  two's-complement truncation to 32 bits (`cInt`), `C.size_t(x)` the reduction
  modulo `2^64`;
* a Go `float64` is a `Float64` value (NaN, the two infinities, or a finite
  number), on which comparisons follow IEEE 754;
* a Go `map` is an association list (`GoMap`) with Go's zero-value lookup;
* a nilable pointer is an `Option`;
* the constants that `bridge.h` and `vips/vips.h` give to cgo (`C.UNKNOWN`,
  `C.JPEG`, ..., `C.VIPS_MAJOR_VERSION`) are the fields of `CHeader`, taken as a
  parameter;
* a pointer parameter (`*ImageRef`, `*ExportParams`) is taken non-nil and passed by
  value, the function returning the value it leaves behind the pointer;
* the native library is an oracle `Native`: each native function maps the
  history of events so far and its arguments to what it returns; every native
  call, log line and runtime call is appended to the event trace of the `World`;
* a Go panic is the `panic` outcome of `Except String`.
-/

namespace Vips

/-! ## Base types -/

deriving instance DecidableEq for Except

/-- A Go `byte`. -/
abbrev Byte := Fin 256

/-- A native address; a nil pointer is `Option.none`. -/
abbrev Ptr := Nat

/-- The cgo conversion `C.int(x)`: truncation to a signed 32-bit integer. -/
def cInt (x : Int) : Int := (x + 2147483648) % 4294967296 - 2147483648

/-- The cgo conversion `C.size_t(x)`: reduction modulo `2^64`. -/
def cSizeT (x : Int) : Int := x % 18446744073709551616

/-- A Go `float64` (and a C `double`): not-a-number, an infinity or a finite number.
The sign of zero, which no comparison observes, is not represented. -/
inductive Float64 where
  | NaN
  | NegInf
  | PosInf
  | finite (q : ℚ)
  deriving DecidableEq

namespace Float64

/-- The comparison `x < y` of Go on `float64` (false as soon as one side is NaN). -/
def lt : Float64 → Float64 → Bool
  | NaN, _ => false
  | _, NaN => false
  | NegInf, NegInf => false
  | NegInf, _ => true
  | _, NegInf => false
  | PosInf, _ => false
  | finite _, PosInf => true
  | finite a, finite b => decide (a < b)

/-- The comparison `x <= y` of Go on `float64` (false as soon as one side is NaN). -/
def le : Float64 → Float64 → Bool
  | NaN, _ => false
  | _, NaN => false
  | NegInf, _ => true
  | _, NegInf => false
  | _, PosInf => true
  | PosInf, finite _ => false
  | finite a, finite b => decide (a ≤ b)

end Float64

/-- Go's `math.Min(x, y)`, from its documentation: `Min(x, -Inf) = Min(-Inf, x) = -Inf`,
`Min(x, NaN) = Min(NaN, x) = NaN`, and otherwise the smaller of the two. -/
def mathMin (x y : Float64) : Float64 :=
  if x = Float64.NegInf ∨ y = Float64.NegInf then Float64.NegInf
  else if x = Float64.NaN ∨ y = Float64.NaN then Float64.NaN
  else if Float64.lt x y then x
  else y

/-- A Go `map`: an association list; the first entry of a key is the live one. -/
abbrev GoMap (κ ν : Type) := List (κ × ν)

namespace GoMap

/-- The Go lookup `m[k]`: the zero value `zero` when the key is absent. -/
def get {κ ν : Type} [DecidableEq κ] (m : GoMap κ ν) (k : κ) (zero : ν) : ν :=
  match m with
  | [] => zero
  | (k', v) :: rest => if k' = k then v else get rest k zero

/-- The Go assignment `m[k] = v`. -/
def set {κ ν : Type} [DecidableEq κ] (m : GoMap κ ν) (k : κ) (v : ν) : GoMap κ ν :=
  match m with
  | [] => [(k, v)]
  | (k', v') :: rest => if k' = k then (k, v) :: rest else (k', v') :: set rest k v

end GoMap

/-- The constants cgo reads from the C headers `bridge.h` (the `ImageType` codes)
and `vips/vips.h` (the version of the linked library). -/
structure CHeader where
  UNKNOWN : Int
  JPEG : Int
  PNG : Int
  TIFF : Int
  WEBP : Int
  VIPS_MAJOR_VERSION : Int
  VIPS_MINOR_VERSION : Int
  /-- The enumerators of a C `enum` are C `int`s. -/
  enum_int : cInt UNKNOWN = UNKNOWN ∧ cInt JPEG = JPEG ∧ cInt PNG = PNG ∧
    cInt TIFF = TIFF ∧ cInt WEBP = WEBP

/-- `type ImageType int`. -/
abbrev ImageType := Int

/-- `ImageTypeUnknown ImageType = C.UNKNOWN`. -/
def ImageTypeUnknown (c : CHeader) : ImageType := c.UNKNOWN
/-- `ImageTypeJPEG ImageType = C.JPEG`. -/
def ImageTypeJPEG (c : CHeader) : ImageType := c.JPEG
/-- `ImageTypePNG ImageType = C.PNG`. -/
def ImageTypePNG (c : CHeader) : ImageType := c.PNG
/-- `ImageTypeTIFF ImageType = C.TIFF`. -/
def ImageTypeTIFF (c : CHeader) : ImageType := c.TIFF
/-- `ImageTypeWEBP ImageType = C.WEBP`. -/
def ImageTypeWEBP (c : CHeader) : ImageType := c.WEBP

/-- The table `imageTypes` of `vips_type.go`. -/
def imageTypes (c : CHeader) : GoMap ImageType String :=
  [(ImageTypeJPEG c, "jpeg"), (ImageTypePNG c, "png"),
   (ImageTypeTIFF c, "tiff"), (ImageTypeWEBP c, "webp")]

/-- `isTypeSupported`: the lookup `supportedImageTypes[imageType]`. -/
def isTypeSupported (supportedImageTypes : GoMap ImageType Bool) (imageType : ImageType) : Bool :=
  supportedImageTypes.get imageType false

/-! ## Format sniffing (`bridge.go`) -/

/-- The Go index expression `buf[i]`, which panics out of range. -/
def index (buf : List Byte) (i : Nat) : Except String Byte :=
  match buf[i]? with
  | some b => .ok b
  | none => .error "runtime error: index out of range"

/-- The Go test `buf[i] == v`. -/
def byteIs (buf : List Byte) (i : Nat) (v : Byte) : Except String Bool :=
  match index buf i with
  | .ok b => .ok (decide (b = v))
  | .error e => .error e

/-- Go's short-circuit `a && b`: `b` is evaluated only when `a` is true. -/
def andAlso (a b : Except String Bool) : Except String Bool :=
  match a with
  | .ok true => b
  | .ok false => .ok false
  | .error e => .error e

/-- Go's short-circuit `a || b`: `b` is evaluated only when `a` is false. -/
def orElse (a b : Except String Bool) : Except String Bool :=
  match a with
  | .ok true => .ok true
  | .ok false => b
  | .error e => .error e

/-- The function `vipsDetermineImageType` of `bridge.go`. -/
def vipsDetermineImageType (c : CHeader) (supportedImageTypes : GoMap ImageType Bool)
    (buf : List Byte) : Except String ImageType :=
  if buf.length < 12 then .ok (ImageTypeUnknown c)
  else
    match andAlso (byteIs buf 0 0xFF) (andAlso (byteIs buf 1 0xD8) (byteIs buf 2 0xFF)) with
    | .error e => .error e
    | .ok true => .ok (ImageTypeJPEG c)
    | .ok false =>
    match andAlso (byteIs buf 0 0x89) (andAlso (byteIs buf 1 0x50)
        (andAlso (byteIs buf 2 0x4E) (byteIs buf 3 0x47))) with
    | .error e => .error e
    | .ok true => .ok (ImageTypePNG c)
    | .ok false =>
    match andAlso (.ok (isTypeSupported supportedImageTypes (ImageTypeTIFF c)))
        (orElse
          (andAlso (byteIs buf 0 0x49) (andAlso (byteIs buf 1 0x49)
            (andAlso (byteIs buf 2 0x2A) (byteIs buf 3 0x0))))
          (andAlso (byteIs buf 0 0x4D) (andAlso (byteIs buf 1 0x4D)
            (andAlso (byteIs buf 2 0x0) (byteIs buf 3 0x2A))))) with
    | .error e => .error e
    | .ok true => .ok (ImageTypeTIFF c)
    | .ok false =>
    match andAlso (.ok (isTypeSupported supportedImageTypes (ImageTypeWEBP c)))
        (andAlso (byteIs buf 8 0x57) (andAlso (byteIs buf 9 0x45)
          (andAlso (byteIs buf 10 0x42) (byteIs buf 11 0x50)))) with
    | .error e => .error e
    | .ok true => .ok (ImageTypeWEBP c)
    | .ok false => .ok (ImageTypeUnknown c)

/-- The sniffing rules as the specification words them: ordered, first match wins,
on the leading bytes `bytes[0..3]`, `bytes[0..4]` and the window `bytes[8..12]`. -/
def sniffRules (c : CHeader) (supportedImageTypes : GoMap ImageType Bool)
    (buf : List Byte) : ImageType :=
  if buf.length < 12 then c.UNKNOWN
  else if buf.take 3 = [0xFF, 0xD8, 0xFF] then c.JPEG
  else if buf.take 4 = [0x89, 0x50, 0x4E, 0x47] then c.PNG
  else if supportedImageTypes.get c.TIFF false = true ∧
      (buf.take 4 = [0x49, 0x49, 0x2A, 0x00] ∨ buf.take 4 = [0x4D, 0x4D, 0x00, 0x2A]) then c.TIFF
  else if supportedImageTypes.get c.WEBP false = true ∧
      (buf.drop 8).take 4 = [0x57, 0x45, 0x42, 0x50] then c.WEBP
  else c.UNKNOWN

/-- An example header: the enum of `bridge.h` numbered from zero, libvips 8.6. -/
def exampleHeader : CHeader :=
  { UNKNOWN := 0, JPEG := 1, WEBP := 2, PNG := 3, TIFF := 4,
    VIPS_MAJOR_VERSION := 8, VIPS_MINOR_VERSION := 6,
    enum_int := by decide }

/-! ## Data model (`bridge.go`, `vips_type.go`, `vips.go`) -/

/-- The struct `ImageRef`: the native image (nil is `none`), the format and the
retained input buffer (a nil slice is `none`). -/
structure ImageRef where
  Image : Option Ptr
  Format : ImageType
  Buf : Option (List Byte)
  deriving DecidableEq

/-- The struct `ExportParams`. -/
structure ExportParams where
  Format : ImageType
  Quality : Int
  Compression : Int
  Interlaced : Bool
  Lossless : Bool
  StripMetadata : Bool
  deriving DecidableEq

/-- The struct `StartupConfig`. -/
structure StartupConfig where
  ConcurrencyLevel : Int
  MaxCacheFiles : Int
  MaxCacheMem : Int
  MaxCacheSize : Int
  ReportLeaks : Bool
  CacheTrace : Bool
  deriving DecidableEq

/-- An operand of a `Printf`-style format. -/
inductive Arg where
  | int (i : Int)
  | str (s : String)
  deriving DecidableEq

/-- A Go `error` value of this package: the sentinel `ErrUnsupportedImageFormat`
(made once by `errors.New`) or a fresh error made by `fmt.Errorf`. -/
inductive GoError where
  | ErrUnsupportedImageFormat
  | Errorf (format : String) (args : List Arg)
  deriving DecidableEq

/-- What the program does to the outside: a call into the native library (the names
are those of the C functions), a line of the log, or a call of the Go runtime. -/
inductive Event where
  | Lock
  | Unlock
  | LockOSThread
  | UnlockOSThread
  | Print (msg : String)
  | Printf (format : String) (args : List Arg)
  | SetFinalizer (image : Option Ptr) (format : ImageType)
  | KeepAlive (buf : List Byte)
  | Stack
  | CString (s : String)
  | free (s : String)
  | GoBytes (ptr : Option Ptr) (n : Int)
  | g_free (ptr : Option Ptr)
  | g_object_unref (image : Option Ptr)
  | init_image (buf : List Byte) (len : Int) (imageType : Int)
  | resize_image (image : Option Ptr) (scale vscale : Float64) (kernel : Int)
  | has_alpha_channel (image : Option Ptr)
  | extract_image_area (image : Option Ptr) (left top width height : Int)
  | gravity_image (image : Option Ptr) (direction width height extend : Int)
      (red green blue : Float64)
  | save_webp_buffer (image : Option Ptr) (strip quality lossless : Int)
  | save_png_buffer (image : Option Ptr) (strip compression quality interlaced : Int)
  | save_tiff_buffer (image : Option Ptr)
  | save_jpeg_buffer (image : Option Ptr) (strip quality interlaced : Int)
  | vips_error_buffer
  | vips_error_clear
  | vips_thread_shutdown
  | vips_init (name : String)
  | vips_concurrency_set (n : Int)
  | vips_cache_set_max (n : Int)
  | vips_cache_set_max_mem (n : Int)
  | vips_cache_set_max_files (n : Int)
  | vips_cache_set_trace (b : Int)
  | vips_leak_set (b : Int)
  | vips_concurrency_get
  | vips_cache_get_max_files
  | vips_cache_get_max_mem
  | vips_cache_get_max
  | vips_type_find (basename nickname : String)
  deriving DecidableEq

/-- The native side as an oracle. Each field gives what the C function of that name
returns, from the events so far and its arguments; for a function with an output
pointer the second component is what the pointed variable holds after the call. -/
structure Native where
  init_image : List Event → List Byte → Int → Int → Int × Option Ptr
  resize_image : List Event → Option Ptr → Float64 → Float64 → Int → Int × Option Ptr
  has_alpha_channel : List Event → Option Ptr → Int
  extract_image_area : List Event → Option Ptr → Int → Int → Int → Int → Int × Option Ptr
  gravity_image : List Event → Option Ptr → Int → Int → Int → Int →
    Float64 → Float64 → Float64 → Int × Option Ptr
  save_webp_buffer : List Event → Option Ptr → Int → Int → Int → Int × Option Ptr × Int
  save_png_buffer : List Event → Option Ptr → Int → Int → Int → Int → Int × Option Ptr × Int
  save_tiff_buffer : List Event → Option Ptr → Int × Option Ptr × Int
  save_jpeg_buffer : List Event → Option Ptr → Int → Int → Int → Int × Option Ptr × Int
  GoBytes : List Event → Option Ptr → Int → List Byte
  vips_error_buffer : List Event → String
  Stack : List Event → String
  vips_init : List Event → String → Int
  vips_concurrency_get : List Event → Int
  vips_cache_get_max_files : List Event → Int
  vips_cache_get_max_mem : List Event → Int
  vips_cache_get_max : List Event → Int
  vips_type_find : List Event → String → String → Int

/-- The package-level variables (`running`, `once`, `typeLoaders`,
`supportedImageTypes`) and the trace of events, oldest first. -/
structure World where
  running : Bool
  once : Bool
  typeLoaders : GoMap String ImageType
  supportedImageTypes : GoMap ImageType Bool
  trace : List Event
  deriving DecidableEq

/-- The state of a freshly loaded package. -/
def World.initial : World :=
  { running := false, once := false, typeLoaders := [], supportedImageTypes := [], trace := [] }

/-- Appends one event to the trace. -/
def World.emit (w : World) (e : Event) : World :=
  { w with trace := w.trace ++ [e] }

/-- The events of `w'` that came after those of `w`. -/
def World.since (w' w : World) : List Event :=
  w'.trace.drop w.trace.length

/-! ## `util.go` -/

/-- The function `boolToInt`. -/
def boolToInt (b : Bool) : Int := if b then 1 else 0

/-- The function `toGboolean`. -/
def toGboolean (b : Bool) : Int := if b then cInt 1 else cInt 0

/-- The function `freeCString`. -/
def freeCString (s : String) (w : World) : World := w.emit (.free s)

/-! ## `bridge.go` -/

/-- The constant `defaultQuality`. -/
def defaultQuality : Int := 90
/-- The constant `defaultCompression`. -/
def defaultCompression : Int := 6
/-- The constant `maxScaleFactor`, as the `float64` it is used as. -/
def maxScaleFactor : Float64 := .finite 10

/-- The method `(*ImageRef).Close`. -/
def ImageRef.Close (ref : ImageRef) (w : World) : ImageRef × World :=
  ({ ref with Image := none, Buf := none }, w)

/-- The function `finalizeImage`. -/
def finalizeImage (ref : ImageRef) (w : World) : ImageRef × World :=
  ref.Close w

/-- The function `newImageRef`. -/
def newImageRef (vipsImage : Option Ptr) (format : ImageType) (w : World) : ImageRef × World :=
  ({ Image := vipsImage, Format := format, Buf := none }, w.emit (.SetFinalizer vipsImage format))

/-- The function `handleVipsError`; the two deferred calls run last, in reverse order. -/
def handleVipsError (n : Native) (w : World) : GoError × World :=
  let s := n.vips_error_buffer w.trace
  let w := w.emit .vips_error_buffer
  let stack := n.Stack w.trace
  let w := w.emit .Stack
  (.Errorf "%s\nStack:\n%s" [.str s, .str stack],
    (w.emit .vips_error_clear).emit .vips_thread_shutdown)

/-- The body of `InitImage`, before its deferred `runtime.KeepAlive(buf)`. -/
def InitImage.body (c : CHeader) (n : Native) (buf : List Byte) (w : World) :
    Except String (Option ImageRef × Option GoError) × World :=
  match vipsDetermineImageType c w.supportedImageTypes buf with
  | .error e => (.error e, w)
  | .ok imageType =>
    if imageType = ImageTypeUnknown c then
      if buf.length > 2 then
        match index buf 0, index buf 1, index buf 2 with
        | .ok b0, .ok b1, .ok b2 =>
          (.ok (none, some .ErrUnsupportedImageFormat),
            w.emit (.Printf "Failed to understand image format size=%d %x %x %x"
              [.int buf.length, .int b0.val, .int b1.val, .int b2.val]))
        | .error e, _, _ => (.error e, w)
        | _, .error e, _ => (.error e, w)
        | _, _, .error e => (.error e, w)
      else
        (.ok (none, some .ErrUnsupportedImageFormat),
          w.emit (.Printf "Failed to understand image format size=%d" [.int buf.length]))
    else
      let len := cSizeT buf.length
      match index buf 0 with
      | .error e => (.error e, w)
      | .ok _ =>
        let r := n.init_image w.trace buf len (cInt imageType)
        let w := w.emit (.init_image buf len (cInt imageType))
        if r.1 ≠ 0 then
          let e := handleVipsError n w
          (.ok (none, some e.1), e.2)
        else
          let ir := newImageRef r.2 imageType w
          (.ok (some { ir.1 with Buf := some buf }, none), ir.2)

/-- The function `InitImage`. -/
def InitImage (c : CHeader) (n : Native) (buf : List Byte) (w : World) :
    Except String (Option ImageRef × Option GoError) × World :=
  let r := InitImage.body c n buf w
  (r.1, r.2.emit (.KeepAlive buf))

/-- The function `vipsPrepareForExport`. -/
def vipsPrepareForExport (params : ExportParams) : ExportParams :=
  let params := if params.Quality = 0 then { params with Quality := defaultQuality } else params
  if params.Compression = 0 then { params with Compression := defaultCompression } else params

/-- The function `SaveBuffer`; the second component is `*params` after the call. -/
def SaveBuffer (c : CHeader) (n : Native) (imageRef : ImageRef) (params : ExportParams)
    (w : World) : (Option (List Byte) × Option GoError) × ExportParams × World :=
  let params := vipsPrepareForExport params
  let interlaced := cInt (boolToInt params.Interlaced)
  let quality := cInt params.Quality
  let lossless := cInt (boolToInt params.Lossless)
  let stripMetadata := cInt (boolToInt params.StripMetadata)
  let format := params.Format
  if format ≠ ImageTypeUnknown c ∧ ¬ isTypeSupported w.supportedImageTypes format = true then
    ((none, some (.Errorf "cannot save to %#v" [.str ((imageTypes c).get format "")])), params, w)
  else
    let r : (Int × Option Ptr × Int) × World :=
      if format = ImageTypeWEBP c then
        (n.save_webp_buffer w.trace imageRef.Image stripMetadata quality lossless,
          w.emit (.save_webp_buffer imageRef.Image stripMetadata quality lossless))
      else if format = ImageTypePNG c then
        (n.save_png_buffer w.trace imageRef.Image stripMetadata (cInt params.Compression)
            quality interlaced,
          w.emit (.save_png_buffer imageRef.Image stripMetadata (cInt params.Compression)
            quality interlaced))
      else if format = ImageTypeTIFF c then
        (n.save_tiff_buffer w.trace imageRef.Image, w.emit (.save_tiff_buffer imageRef.Image))
      else
        (n.save_jpeg_buffer w.trace imageRef.Image stripMetadata quality interlaced,
          w.emit (.save_jpeg_buffer imageRef.Image stripMetadata quality interlaced))
    let cErr := r.1.1
    let ptr := r.1.2.1
    let cLen := r.1.2.2
    let w := r.2
    if cErr ≠ 0 then
      let e := handleVipsError n w
      ((none, some e.1), params, e.2)
    else
      let buf := n.GoBytes w.trace ptr (cInt cLen)
      let w := w.emit (.GoBytes ptr (cInt cLen))
      ((some buf, none), params, w.emit (.g_free ptr))

/-- The function `ResizeImage`. The argument of the deferred `g_object_unref` is
evaluated at the `defer` statement; the call itself runs when the function returns. -/
def ResizeImage (n : Native) (imageRef : ImageRef) (scale vscale : Float64) (kernel : Int)
    (w : World) : Option GoError × ImageRef × World :=
  let scale := mathMin scale maxScaleFactor
  let vscale := mathMin vscale maxScaleFactor
  let deferred := Event.g_object_unref imageRef.Image
  let r := n.resize_image w.trace imageRef.Image scale vscale (cInt kernel)
  let w := w.emit (.resize_image imageRef.Image scale vscale (cInt kernel))
  if r.1 ≠ 0 then
    let e := handleVipsError n w
    (some e.1, imageRef, e.2.emit deferred)
  else
    (none, { imageRef with Image := r.2 }, w.emit deferred)

/-- The function `HasAlphaChannel`. -/
def HasAlphaChannel (n : Native) (imageRef : ImageRef) (w : World) : Bool × World :=
  (decide (n.has_alpha_channel w.trace imageRef.Image > 0),
    w.emit (.has_alpha_channel imageRef.Image))

/-- The function `ExtractImageArea`. -/
def ExtractImageArea (n : Native) (imageRef : ImageRef) (left top width height : Int)
    (w : World) : Option GoError × ImageRef × World :=
  let deferred := Event.g_object_unref imageRef.Image
  let r := n.extract_image_area w.trace imageRef.Image
    (cInt left) (cInt top) (cInt width) (cInt height)
  let w := w.emit (.extract_image_area imageRef.Image
    (cInt left) (cInt top) (cInt width) (cInt height))
  if r.1 ≠ 0 then
    let e := handleVipsError n w
    (some e.1, imageRef, e.2.emit deferred)
  else
    (none, { imageRef with Image := r.2 }, w.emit deferred)

/-- The function `GravityImage`. -/
def GravityImage (n : Native) (imageRef : ImageRef) (direction width height extend : Int)
    (red green blue : Float64) (w : World) : Option GoError × ImageRef × World :=
  let deferred := Event.g_object_unref imageRef.Image
  let r := n.gravity_image w.trace imageRef.Image
    (cInt direction) (cInt width) (cInt height) (cInt extend) red green blue
  let w := w.emit (.gravity_image imageRef.Image
    (cInt direction) (cInt width) (cInt height) (cInt extend) red green blue)
  if r.1 ≠ 0 then
    let e := handleVipsError n w
    (some e.1, imageRef, e.2.emit deferred)
  else
    (none, { imageRef with Image := r.2 }, w.emit deferred)

/-! ## `vips_type.go`: the one-time probe -/

/-- One turn of the loop of `initTypes` on the entry `(k, v)` of `imageTypes`; the
second component collects the deferred `freeCString(cFunc)` calls, last first. -/
def initTypes.step (n : Native) (acc : World × List String) (kv : ImageType × String) :
    World × List String :=
  let w := acc.1
  let name := ("VipsForeignLoad" ++ kv.2).toLower
  let w := { w with typeLoaders := w.typeLoaders.set name kv.1 }
  let w := { w with typeLoaders := w.typeLoaders.set (name ++ "buffer") kv.1 }
  let w := w.emit (.CString (kv.2 ++ "load"))
  let ret := n.vips_type_find w.trace "VipsOperation" (kv.2 ++ "load")
  let w := w.emit (.vips_type_find "VipsOperation" (kv.2 ++ "load"))
  let w := w.emit (.Printf "Registered image type loader type=%s" [.str kv.2])
  let w := { w with supportedImageTypes := w.supportedImageTypes.set kv.1 (decide (ret ≠ 0)) }
  (w, (kv.2 ++ "load") :: acc.2)

/-- The function `initTypes`: the body runs under `once.Do`. The entries of
`imageTypes` are visited in the order of the table (Go leaves the order open). -/
def initTypes (c : CHeader) (n : Native) (w : World) : World :=
  if w.once then w
  else
    let w := w.emit (.CString "VipsOperation")
    let r := (imageTypes c).foldl (initTypes.step n) (w, [])
    let w := r.2.foldl (fun w s => freeCString s w) r.1
    let w := freeCString "VipsOperation" w
    { w with once := true }

/-! ## `vips.go` -/

/-- The constant `defaultConcurrencyLevel`. -/
def defaultConcurrencyLevel : Int := 1
/-- The constant `defaultMaxCacheMem`. -/
def defaultMaxCacheMem : Int := 100 * 1024 * 1024
/-- The constant `defaultMaxCacheSize`. -/
def defaultMaxCacheSize : Int := 500

/-- The part of `Startup` that applies `config` when it is not nil. -/
def Startup.configure (config : Option StartupConfig) (w : World) : World :=
  match config with
  | none => w
  | some config =>
    let w := w.emit (.vips_leak_set (toGboolean config.ReportLeaks))
    let w := if config.ConcurrencyLevel > 0 then
      w.emit (.vips_concurrency_set (cInt config.ConcurrencyLevel)) else w
    let w := if config.MaxCacheFiles > 0 then
      w.emit (.vips_cache_set_max_files (cInt config.MaxCacheFiles)) else w
    let w := if config.MaxCacheMem > 0 then
      w.emit (.vips_cache_set_max_mem (cSizeT config.MaxCacheMem)) else w
    let w := if config.MaxCacheSize > 0 then
      w.emit (.vips_cache_set_max (cInt config.MaxCacheSize)) else w
    if config.CacheTrace then w.emit (.vips_cache_set_trace (toGboolean true)) else w

/-- The part of `Startup` from `C.vips_init` on, before the deferred
`freeCString(cName)`. -/
def Startup.init (c : CHeader) (n : Native) (config : Option StartupConfig) (w : World) :
    Except String Unit × World :=
  let err := n.vips_init w.trace "govips"
  let w := w.emit (.vips_init "govips")
  if err ≠ 0 then
    (.error ("Failed to start vips code=" ++ toString err), w)
  else
    let w := { w with running := true }
    let w := w.emit (.vips_concurrency_set (cInt defaultConcurrencyLevel))
    let w := w.emit (.vips_cache_set_max (cInt defaultMaxCacheSize))
    let w := w.emit (.vips_cache_set_max_mem (cSizeT defaultMaxCacheMem))
    let w := Startup.configure config w
    let a := n.vips_concurrency_get w.trace
    let w := w.emit .vips_concurrency_get
    let b := n.vips_cache_get_max_files w.trace
    let w := w.emit .vips_cache_get_max_files
    let d := n.vips_cache_get_max_mem w.trace
    let w := w.emit .vips_cache_get_max_mem
    let e := n.vips_cache_get_max w.trace
    let w := w.emit .vips_cache_get_max
    let w := w.emit (.Printf
      "Vips started with concurrency=%d cache_max_files=%d cache_max_mem=%d cache_max=%d"
      [.int a, .int b, .int d, .int e])
    (.ok (), initTypes c n w)

/-- The body of `Startup`, between the locks and the deferred unlocks. -/
def Startup.body (c : CHeader) (n : Native) (config : Option StartupConfig) (w : World) :
    Except String Unit × World :=
  if w.running then
    (.ok (), w.emit (.Print "warning libvips already started"))
  else if c.VIPS_MAJOR_VERSION < 8 then
    (.error "Requires libvips version 8.3+", w)
  else if c.VIPS_MINOR_VERSION < 3 then
    (.error "Requires libvips version 8.3+", w)
  else
    let w := w.emit (.CString "govips")
    let r := Startup.init c n config w
    (r.1, freeCString "govips" r.2)

/-- The function `Startup`; an `error` outcome is a panic. The deferred
`runtime.UnlockOSThread()` and `initLock.Unlock()` run also when the body panics. -/
def Startup (c : CHeader) (n : Native) (config : Option StartupConfig) (w : World) :
    Except String Unit × World :=
  let w := (w.emit .Lock).emit .LockOSThread
  let r := Startup.body c n config w
  (r.1, (r.2.emit .UnlockOSThread).emit .Unlock)

/-! ## Observations used to state the properties -/

/-- A call into the native library or the C runtime (as opposed to a line of the log
or a call of the Go runtime). -/
def Event.isNative : Event → Bool
  | .Lock | .Unlock | .LockOSThread | .UnlockOSThread => false
  | .Print _ | .Printf _ _ | .SetFinalizer _ _ | .KeepAlive _ | .Stack => false
  | _ => true

/-- A release of a native object. -/
def Event.isRelease : Event → Bool
  | .g_object_unref _ => true
  | _ => false

/-- A call of the native decoder. -/
def Event.isDecode : Event → Bool
  | .init_image _ _ _ => true
  | _ => false

/-- A call of a native encoder. -/
def Event.isSave : Event → Bool
  | .save_webp_buffer _ _ _ _ => true
  | .save_png_buffer _ _ _ _ _ => true
  | .save_tiff_buffer _ => true
  | .save_jpeg_buffer _ _ _ _ => true
  | _ => false

/-- The quality an event hands to a native encoder, if it hands one. -/
def Event.quality : Event → Option Int
  | .save_webp_buffer _ _ q _ => some q
  | .save_png_buffer _ _ _ q _ => some q
  | .save_jpeg_buffer _ _ q _ => some q
  | _ => none

/-- The compression an event hands to the PNG encoder, if it is a PNG save. -/
def Event.compression : Event → Option Int
  | .save_png_buffer _ _ k _ _ => some k
  | _ => none

/-- A call of the native resize. -/
def Event.isResize : Event → Bool
  | .resize_image _ _ _ _ => true
  | _ => false

/-- The header of a libvips 9.0: the enum of `bridge.h` as in `exampleHeader`. -/
def header90 : CHeader :=
  { exampleHeader with VIPS_MAJOR_VERSION := 9, VIPS_MINOR_VERSION := 0 }

/-- A native side on which every call reports `status` and writes `out` to its
output pointer; the version-independent getters return zero. -/
def constNative (status : Int) (out : Option Ptr) : Native :=
  { init_image := fun _ _ _ _ => (status, out)
    resize_image := fun _ _ _ _ _ => (status, out)
    has_alpha_channel := fun _ _ => 0
    extract_image_area := fun _ _ _ _ _ _ => (status, out)
    gravity_image := fun _ _ _ _ _ _ _ _ _ => (status, out)
    save_webp_buffer := fun _ _ _ _ _ => (status, out, 0)
    save_png_buffer := fun _ _ _ _ _ _ => (status, out, 0)
    save_tiff_buffer := fun _ _ => (status, out, 0)
    save_jpeg_buffer := fun _ _ _ _ _ => (status, out, 0)
    GoBytes := fun _ _ _ => []
    vips_error_buffer := fun _ => "error"
    Stack := fun _ => ""
    vips_init := fun _ _ => status
    vips_concurrency_get := fun _ => 0
    vips_cache_get_max_files := fun _ => 0
    vips_cache_get_max_mem := fun _ => 0
    vips_cache_get_max := fun _ => 0
    vips_type_find := fun _ _ _ => status }

/-! ## Sniffing: theorems -/

/-- A buffer of at least twelve bytes, split into its first twelve bytes and the rest. -/
theorem exists_twelve (buf : List Byte) (h : ¬ buf.length < 12) :
    ∃ b0 b1 b2 b3 b4 b5 b6 b7 b8 b9 b10 b11 rest,
      buf = b0 :: b1 :: b2 :: b3 :: b4 :: b5 :: b6 :: b7 :: b8 :: b9 :: b10 :: b11 :: rest := by
  match buf, h with
  | b0 :: b1 :: b2 :: b3 :: b4 :: b5 :: b6 :: b7 :: b8 :: b9 :: b10 :: b11 :: rest, _ =>
    exact ⟨b0, b1, b2, b3, b4, b5, b6, b7, b8, b9, b10, b11, rest, rfl⟩
  | [], h => simp at h
  | [_], h => simp at h
  | [_, _], h => simp at h
  | [_, _, _], h => simp at h
  | [_, _, _, _], h => simp at h
  | [_, _, _, _, _], h => simp at h
  | [_, _, _, _, _, _], h => simp at h
  | [_, _, _, _, _, _, _], h => simp at h
  | [_, _, _, _, _, _, _, _], h => simp at h
  | [_, _, _, _, _, _, _, _, _], h => simp at h
  | [_, _, _, _, _, _, _, _, _, _], h => simp at h
  | [_, _, _, _, _, _, _, _, _, _, _], h => simp at h

theorem andAlso_ok (a b : Bool) : andAlso (.ok a) (.ok b) = .ok (a && b) := by
  cases a <;> rfl

theorem orElse_ok (a b : Bool) : orElse (.ok a) (.ok b) = .ok (a || b) := by
  cases a <;> rfl

theorem match_ok {α : Type} (b : Bool) (x y : Except String α) :
    (match (Except.ok b : Except String Bool) with
      | .error e => .error e
      | .ok true => x
      | .ok false => y) = if b = true then x else y := by
  cases b <;> rfl

theorem sniff_eq (c : CHeader) (sup : GoMap ImageType Bool) (buf : List Byte) :
    vipsDetermineImageType c sup buf = .ok (sniffRules c sup buf) := by
  by_cases h : buf.length < 12
  · simp [vipsDetermineImageType, sniffRules, h, ImageTypeUnknown]
  · obtain ⟨b0, b1, b2, b3, b4, b5, b6, b7, b8, b9, b10, b11, rest, rfl⟩ := exists_twelve buf h
    simp only [vipsDetermineImageType, sniffRules, h, byteIs, index, andAlso_ok, orElse_ok,
      isTypeSupported, ImageTypeUnknown, ImageTypeJPEG, ImageTypePNG, ImageTypeTIFF, ImageTypeWEBP]
    simp
    simp only [andAlso_ok, orElse_ok, match_ok]
    split_ifs <;> simp_all

/-- C1: for every byte buffer and every state of the codec-support map,
`vipsDetermineImageType` returns (without panicking) exactly the result of the ordered
first-match-wins rules `sniffRules`: Unknown under 12 bytes, else JPEG on `FF D8 FF`,
else PNG on `89 50 4E 47`, else TIFF when TIFF is supported and the TIFF magic leads,
else WEBP when WEBP is supported and bytes 8..11 read `WEBP`, else Unknown. In
particular the JPEG and PNG answers depend neither on the remaining bytes nor on the
support map. -/
theorem vipsDetermineImageType_rules (c : CHeader) (sup : GoMap ImageType Bool)
    (buf : List Byte) :
    vipsDetermineImageType c sup buf = .ok (sniffRules c sup buf) ∧
    (∀ (sup' : GoMap ImageType Bool) (b3 b4 b5 b6 b7 b8 b9 b10 b11 : Byte) (rest : List Byte),
      vipsDetermineImageType c sup'
        (0xFF :: 0xD8 :: 0xFF :: b3 :: b4 :: b5 :: b6 :: b7 :: b8 :: b9 :: b10 :: b11 :: rest)
        = .ok (ImageTypeJPEG c)) ∧
    (∀ (sup' : GoMap ImageType Bool) (b4 b5 b6 b7 b8 b9 b10 b11 : Byte) (rest : List Byte),
      vipsDetermineImageType c sup'
        (0x89 :: 0x50 :: 0x4E :: 0x47 :: b4 :: b5 :: b6 :: b7 :: b8 :: b9 :: b10 :: b11 :: rest)
        = .ok (ImageTypePNG c)) := by
  refine ⟨sniff_eq c sup buf, ?_, ?_⟩
  · intro sup' b3 b4 b5 b6 b7 b8 b9 b10 b11 rest
    rw [sniff_eq]
    simp [sniffRules, ImageTypeJPEG]
  · intro sup' b4 b5 b6 b7 b8 b9 b10 b11 rest
    rw [sniff_eq]
    simp [sniffRules, ImageTypePNG]

/-- C2, as stated, fails: with TIFF unsupported and WEBP supported, a 12-byte buffer
that leads with the TIFF magic `49 49 2A 00` and reads `WEBP` at bytes 8..11 is sniffed
as WEBP, not as Unknown. -/
theorem tiff_magic_sniffed_as_webp :
    isTypeSupported [(4, false), (2, true)] (ImageTypeTIFF exampleHeader) = false ∧
    vipsDetermineImageType exampleHeader [(4, false), (2, true)]
      [0x49, 0x49, 0x2A, 0x00, 0, 0, 0, 0, 0x57, 0x45, 0x42, 0x50]
      = .ok (ImageTypeWEBP exampleHeader) ∧
    vipsDetermineImageType exampleHeader [(4, false), (2, true)]
      [0x49, 0x49, 0x2A, 0x00, 0, 0, 0, 0, 0x57, 0x45, 0x42, 0x50]
      ≠ .ok (ImageTypeUnknown exampleHeader) := by
  decide

/-- C2, amended: for every buffer of at least 12 bytes whose first four bytes are the
TIFF magic (`49 49 2A 00` or `4D 4D 00 2A`), `vipsDetermineImageType` returns TIFF if
TIFF is supported; otherwise WEBP if WEBP is supported and bytes 8..11 read `WEBP`;
otherwise Unknown. -/
theorem vipsDetermineImageType_tiff_magic (c : CHeader) (sup : GoMap ImageType Bool)
    (b4 b5 b6 b7 b8 b9 b10 b11 : Byte) (rest : List Byte) :
    (vipsDetermineImageType c sup
      (0x49 :: 0x49 :: 0x2A :: 0x00 :: b4 :: b5 :: b6 :: b7 :: b8 :: b9 :: b10 :: b11 :: rest)
      = .ok (if isTypeSupported sup (ImageTypeTIFF c) = true then ImageTypeTIFF c
          else if isTypeSupported sup (ImageTypeWEBP c) = true ∧
            [b8, b9, b10, b11] = [0x57, 0x45, 0x42, 0x50] then ImageTypeWEBP c
          else ImageTypeUnknown c)) ∧
    (vipsDetermineImageType c sup
      (0x4D :: 0x4D :: 0x00 :: 0x2A :: b4 :: b5 :: b6 :: b7 :: b8 :: b9 :: b10 :: b11 :: rest)
      = .ok (if isTypeSupported sup (ImageTypeTIFF c) = true then ImageTypeTIFF c
          else if isTypeSupported sup (ImageTypeWEBP c) = true ∧
            [b8, b9, b10, b11] = [0x57, 0x45, 0x42, 0x50] then ImageTypeWEBP c
          else ImageTypeUnknown c)) := by
  constructor <;>
  · rw [sniff_eq]
    simp [sniffRules, isTypeSupported, ImageTypeTIFF, ImageTypeWEBP, ImageTypeUnknown]

/-! ## Traces -/

theorem emit_trace (w : World) (e : Event) : (w.emit e).trace = w.trace ++ [e] := rfl

theorem since_of_trace (w' w : World) (es : List Event) (h : w'.trace = w.trace ++ es) :
    w'.since w = es := by
  simp [World.since, h]

theorem handleVipsError_trace (n : Native) (w : World) :
    (handleVipsError n w).2.trace = w.trace ++
      [.vips_error_buffer, .Stack, .vips_error_clear, .vips_thread_shutdown] := by
  simp [handleVipsError, emit_trace]

theorem handleVipsError_fst (n : Native) (w : World) :
    (handleVipsError n w).1 = .Errorf "%s\nStack:\n%s"
      [.str (n.vips_error_buffer w.trace),
       .str (n.Stack (w.trace ++ [.vips_error_buffer]))] := by
  simp [handleVipsError, emit_trace]

/-! ## Opening an image -/

theorem sniffRules_short (c : CHeader) (sup : GoMap ImageType Bool) (buf : List Byte)
    (h : buf.length < 12) : sniffRules c sup buf = c.UNKNOWN := by
  simp [sniffRules, h]

theorem cInt_sniffRules (c : CHeader) (sup : GoMap ImageType Bool) (buf : List Byte) :
    cInt (sniffRules c sup buf) = sniffRules c sup buf := by
  obtain ⟨h0, h1, h2, h3, h4⟩ := c.enum_int
  unfold sniffRules
  split_ifs <;> assumption

theorem index_zero_ok (buf : List Byte) (h : ¬ buf.length < 12) :
    ∃ b, index buf 0 = .ok b := by
  obtain ⟨b0, b1, b2, b3, b4, b5, b6, b7, b8, b9, b10, b11, rest, rfl⟩ := exists_twelve buf h
  exact ⟨b0, rfl⟩

theorem InitImage_unknown (c : CHeader) (n : Native) (buf : List Byte) (w : World)
    (h : sniffRules c w.supportedImageTypes buf = c.UNKNOWN) :
    InitImage c n buf w =
      (.ok (none, some .ErrUnsupportedImageFormat),
        (w.emit (if buf.length > 2 then
            .Printf "Failed to understand image format size=%d %x %x %x"
              [.int buf.length, .int ((buf.getD 0 0).val), .int ((buf.getD 1 0).val),
               .int ((buf.getD 2 0).val)]
          else .Printf "Failed to understand image format size=%d" [.int buf.length])).emit
          (.KeepAlive buf)) := by
  simp only [InitImage, InitImage.body, sniff_eq, h, ImageTypeUnknown, if_true]
  match buf with
  | [] => simp
  | [_] => simp
  | [_, _] => simp
  | b0 :: b1 :: b2 :: rest => simp [index]

theorem InitImage_known (c : CHeader) (n : Native) (buf : List Byte) (w : World)
    (h : sniffRules c w.supportedImageTypes buf ≠ c.UNKNOWN) :
    InitImage c n buf w =
      if (n.init_image w.trace buf (cSizeT buf.length)
          (sniffRules c w.supportedImageTypes buf)).1 ≠ 0 then
        (.ok (none, some (handleVipsError n (w.emit (.init_image buf (cSizeT buf.length)
            (sniffRules c w.supportedImageTypes buf)))).1),
          (handleVipsError n (w.emit (.init_image buf (cSizeT buf.length)
            (sniffRules c w.supportedImageTypes buf)))).2.emit (.KeepAlive buf))
      else
        (.ok (some (ImageRef.mk (n.init_image w.trace buf (cSizeT buf.length)
              (sniffRules c w.supportedImageTypes buf)).2
            (sniffRules c w.supportedImageTypes buf) (some buf)), none),
          (((w.emit (.init_image buf (cSizeT buf.length)
            (sniffRules c w.supportedImageTypes buf))).emit
            (.SetFinalizer (n.init_image w.trace buf (cSizeT buf.length)
              (sniffRules c w.supportedImageTypes buf)).2
              (sniffRules c w.supportedImageTypes buf))).emit (.KeepAlive buf))) := by
  have hlen : ¬ buf.length < 12 := fun hl => h (sniffRules_short c _ buf hl)
  obtain ⟨b, hb⟩ := index_zero_ok buf hlen
  simp only [InitImage, InitImage.body, sniff_eq, ImageTypeUnknown, h, if_false, hb,
    cInt_sniffRules, newImageRef]
  split_ifs <;> rfl

/-- C3: for every buffer (the empty one and those of 1 or 2 bytes included), `InitImage`
never panics (no index leaves the buffer), and it returns the error
`ErrUnsupportedImageFormat` with no handle exactly when `vipsDetermineImageType` yields
Unknown, in which case it makes no native call at all. When the sniffed type `t` is not
Unknown, the native decoder is called exactly once, with `t`; when that call succeeds
the returned handle carries the native image, the format `t` and the original buffer,
and when it fails the translated native error is returned. -/
theorem InitImage_unsupported_iff_unknown (c : CHeader) (n : Native) (buf : List Byte)
    (w : World) :
    let t := sniffRules c w.supportedImageTypes buf
    let r := InitImage c n buf w
    let d := n.init_image w.trace buf (cSizeT buf.length) t
    vipsDetermineImageType c w.supportedImageTypes buf = .ok t ∧
    (∀ e, r.1 ≠ .error e) ∧
    (r.1 = .ok (none, some .ErrUnsupportedImageFormat) ↔ t = ImageTypeUnknown c) ∧
    (if t = ImageTypeUnknown c then
      (r.2.since w).filter Event.isNative = []
    else
      (r.2.since w).filter Event.isDecode = [.init_image buf (cSizeT buf.length) t] ∧
      (if d.1 = 0 then r.1 = .ok (some (ImageRef.mk d.2 t (some buf)), none)
        else r.1 = .ok (none, some (handleVipsError n
          (w.emit (.init_image buf (cSizeT buf.length) t))).1))) := by
  dsimp only
  refine ⟨sniff_eq c _ buf, ?_⟩
  by_cases ht : sniffRules c w.supportedImageTypes buf = c.UNKNOWN
  · rw [InitImage_unknown c n buf w ht]
    simp only [ht, ImageTypeUnknown, if_true]
    refine ⟨by simp, by simp, ?_⟩
    rw [since_of_trace _ w [_, _] (by simp only [emit_trace, List.append_assoc]; rfl)]
    split_ifs <;> simp [Event.isNative]
  · rw [InitImage_known c n buf w ht]
    simp only [ImageTypeUnknown, if_neg ht]
    by_cases hd : (n.init_image w.trace buf (cSizeT buf.length)
        (sniffRules c w.supportedImageTypes buf)).1 = 0
    · simp only [hd, ne_eq, not_true_eq_false, if_false, if_true]
      refine ⟨by simp, by simp [ht], ?_, trivial⟩
      rw [since_of_trace _ w [_, _, _] (by simp only [emit_trace, List.append_assoc]; rfl)]
      simp [Event.isDecode]
    · simp only [hd, ne_eq, not_false_eq_true, if_false, if_true]
      refine ⟨by simp, by simp [ht, handleVipsError_fst], ?_, trivial⟩
      rw [since_of_trace _ w [_, _, _, _, _, _]
        (by simp only [emit_trace, handleVipsError_trace, List.append_assoc]; rfl)]
      simp [Event.isDecode]

/-! ## Saving an image -/

theorem vipsPrepareForExport_eq (p : ExportParams) :
    vipsPrepareForExport p =
      ExportParams.mk p.Format (if p.Quality = 0 then 90 else p.Quality)
        (if p.Compression = 0 then 6 else p.Compression)
        p.Interlaced p.Lossless p.StripMetadata := by
  cases p with
  | mk f q k i l s =>
    by_cases hq : q = 0 <;> by_cases hk : k = 0 <;>
      simp [vipsPrepareForExport, defaultQuality, defaultCompression, hq, hk]

theorem cInt_of_range (x : Int) (h : -2147483648 ≤ x ∧ x < 2147483648) : cInt x = x := by
  unfold cInt
  omega

theorem SaveBuffer_saves (c : CHeader) (n : Native) (imageRef : ImageRef)
    (p : ExportParams) (w : World) :
    ((SaveBuffer c n imageRef p w).2.2.since w).filter Event.isSave =
      if p.Format ≠ ImageTypeUnknown c ∧
          ¬ isTypeSupported w.supportedImageTypes p.Format = true then []
      else if p.Format = ImageTypeWEBP c then
        [.save_webp_buffer imageRef.Image (cInt (boolToInt p.StripMetadata))
          (cInt (if p.Quality = 0 then 90 else p.Quality)) (cInt (boolToInt p.Lossless))]
      else if p.Format = ImageTypePNG c then
        [.save_png_buffer imageRef.Image (cInt (boolToInt p.StripMetadata))
          (cInt (if p.Compression = 0 then 6 else p.Compression))
          (cInt (if p.Quality = 0 then 90 else p.Quality)) (cInt (boolToInt p.Interlaced))]
      else if p.Format = ImageTypeTIFF c then [.save_tiff_buffer imageRef.Image]
      else
        [.save_jpeg_buffer imageRef.Image (cInt (boolToInt p.StripMetadata))
          (cInt (if p.Quality = 0 then 90 else p.Quality)) (cInt (boolToInt p.Interlaced))] := by
  simp only [SaveBuffer, vipsPrepareForExport_eq]
  split_ifs <;>
    first
    | (rw [since_of_trace _ w [] (by simp)]; rfl)
    | (rw [since_of_trace _ w [_, _, _, _, _]
        (by simp only [emit_trace, handleVipsError_trace, List.append_assoc]; rfl)]
       simp [Event.isSave])
    | (rw [since_of_trace _ w [_, _, _]
        (by simp only [emit_trace, List.append_assoc]; rfl)]
       simp [Event.isSave])

theorem isSave_of_quality (e : Event) (x : Int) (h : e.quality = some x) : e.isSave = true := by
  cases e <;> simp [Event.quality] at h
  all_goals rfl

theorem isSave_of_compression (e : Event) (x : Int) (h : e.compression = some x) :
    e.isSave = true := by
  cases e <;> simp [Event.compression] at h
  rfl

/-- C4, as stated, fails: saving with `Quality = 4294967296` (not zero, so no default
applies) hands the JPEG encoder the quality `C.int(4294967296) = 0`, not
`params.Quality`. -/
theorem SaveBuffer_quality_truncated :
    (SaveBuffer exampleHeader (constNative 0 none) (ImageRef.mk (some 1) 1 none)
      (ExportParams.mk 0 4294967296 0 false false false) World.initial).2.2.trace =
      [.save_jpeg_buffer (some 1) 0 0 0, .GoBytes none 0, .g_free none] ∧
    ¬ (∀ e ∈ (SaveBuffer exampleHeader (constNative 0 none) (ImageRef.mk (some 1) 1 none)
        (ExportParams.mk 0 4294967296 0 false false false) World.initial).2.2.trace,
      ∀ x, e.quality = some x →
        x = if (ExportParams.mk 0 4294967296 0 false false false).Quality = 0 then 90
          else (ExportParams.mk 0 4294967296 0 false false false).Quality) := by
  have ht : (SaveBuffer exampleHeader (constNative 0 none) (ImageRef.mk (some 1) 1 none)
      (ExportParams.mk 0 4294967296 0 false false false) World.initial).2.2.trace =
      [.save_jpeg_buffer (some 1) 0 0 0, .GoBytes none 0, .g_free none] := by decide
  refine ⟨ht, fun h => ?_⟩
  have h0 := h (.save_jpeg_buffer (some 1) 0 0 0) (by rw [ht]; simp) 0 rfl
  revert h0
  decide

/-- C4, amended: for every ExportParams, `vipsPrepareForExport` replaces a zero `Quality`
by 90 and a zero `Compression` by 6 and changes no other field, and `SaveBuffer` leaves
the params so prepared. Every quality `SaveBuffer` hands to a native encoder is `C.int(q)`,
the 32-bit truncation of `q`, where `q` is 90 when `params.Quality` is 0 and
`params.Quality` otherwise; the compression handed to the PNG encoder is `C.int(k)`
where `k` is 6 when `params.Compression` is 0 and `params.Compression` otherwise. When
`params.Quality` (respectively `params.Compression`) fits in 32 bits the value handed is
`q` (respectively `k`) itself. -/
theorem SaveBuffer_defaults (c : CHeader) (n : Native) (imageRef : ImageRef)
    (p : ExportParams) (w : World) :
    vipsPrepareForExport p =
      ExportParams.mk p.Format (if p.Quality = 0 then 90 else p.Quality)
        (if p.Compression = 0 then 6 else p.Compression)
        p.Interlaced p.Lossless p.StripMetadata ∧
    (SaveBuffer c n imageRef p w).2.1 = vipsPrepareForExport p ∧
    (∀ e ∈ (SaveBuffer c n imageRef p w).2.2.since w,
      (∀ x, e.quality = some x → x = cInt (if p.Quality = 0 then 90 else p.Quality)) ∧
      (∀ x, e.compression = some x →
        x = cInt (if p.Compression = 0 then 6 else p.Compression))) ∧
    ((SaveBuffer c n imageRef p w).2.2.since w).filter Event.isSave =
      (if p.Format ≠ ImageTypeUnknown c ∧
          ¬ isTypeSupported w.supportedImageTypes p.Format = true then []
      else if p.Format = ImageTypeWEBP c then
        [.save_webp_buffer imageRef.Image (cInt (boolToInt p.StripMetadata))
          (cInt (if p.Quality = 0 then 90 else p.Quality)) (cInt (boolToInt p.Lossless))]
      else if p.Format = ImageTypePNG c then
        [.save_png_buffer imageRef.Image (cInt (boolToInt p.StripMetadata))
          (cInt (if p.Compression = 0 then 6 else p.Compression))
          (cInt (if p.Quality = 0 then 90 else p.Quality)) (cInt (boolToInt p.Interlaced))]
      else if p.Format = ImageTypeTIFF c then [.save_tiff_buffer imageRef.Image]
      else
        [.save_jpeg_buffer imageRef.Image (cInt (boolToInt p.StripMetadata))
          (cInt (if p.Quality = 0 then 90 else p.Quality))
          (cInt (boolToInt p.Interlaced))]) ∧
    (-2147483648 ≤ p.Quality ∧ p.Quality < 2147483648 →
      cInt (if p.Quality = 0 then 90 else p.Quality) =
        if p.Quality = 0 then 90 else p.Quality) ∧
    (-2147483648 ≤ p.Compression ∧ p.Compression < 2147483648 →
      cInt (if p.Compression = 0 then 6 else p.Compression) =
        if p.Compression = 0 then 6 else p.Compression) := by
  refine ⟨vipsPrepareForExport_eq p, ?_, ?_, SaveBuffer_saves c n imageRef p w, ?_, ?_⟩
  · simp only [SaveBuffer]
    split_ifs <;> rfl
  · intro e he
    have hs := SaveBuffer_saves c n imageRef p w
    generalize (if p.Quality = 0 then (90 : Int) else p.Quality) = q at hs ⊢
    generalize (if p.Compression = 0 then (6 : Int) else p.Compression) = k at hs ⊢
    constructor
    · intro x hx
      have hmem : e ∈ ((SaveBuffer c n imageRef p w).2.2.since w).filter Event.isSave :=
        List.mem_filter.mpr ⟨he, isSave_of_quality e x hx⟩
      rw [hs] at hmem
      split_ifs at hmem <;> simp at hmem <;> subst hmem <;>
        simp [Event.quality] at hx
      all_goals exact hx.symm
    · intro x hx
      have hmem : e ∈ ((SaveBuffer c n imageRef p w).2.2.since w).filter Event.isSave :=
        List.mem_filter.mpr ⟨he, isSave_of_compression e x hx⟩
      rw [hs] at hmem
      split_ifs at hmem <;> simp at hmem <;> subst hmem <;>
        simp [Event.compression] at hx
      exact hx.symm
  · intro h
    apply cInt_of_range
    split_ifs <;> omega
  · intro h
    apply cInt_of_range
    split_ifs <;> omega

/-- C5, as stated, fails: saving to WEBP when WEBP is not supported returns the fresh
error `cannot save to "webp"` made by `fmt.Errorf`, which is not the error
`ErrUnsupportedImageFormat` that `InitImage` returns. -/
theorem SaveBuffer_unsupported_not_sentinel :
    isTypeSupported World.initial.supportedImageTypes (ImageTypeWEBP exampleHeader) = false ∧
    (SaveBuffer exampleHeader (constNative 0 none) (ImageRef.mk (some 1) 1 none)
      (ExportParams.mk 2 0 0 false false false) World.initial).1 =
      (none, some (.Errorf "cannot save to %#v" [.str "webp"])) ∧
    (SaveBuffer exampleHeader (constNative 0 none) (ImageRef.mk (some 1) 1 none)
      (ExportParams.mk 2 0 0 false false false) World.initial).1 ≠
      (none, some .ErrUnsupportedImageFormat) ∧
    (InitImage exampleHeader (constNative 0 none) [] World.initial).1 =
      .ok (none, some .ErrUnsupportedImageFormat) := by
  decide

/-- C5, amended: for every handle and every ExportParams whose Format is not Unknown and
is marked unsupported by the support map, `SaveBuffer` returns no buffer and the error
`fmt.Errorf("cannot save to %#v", imageTypes[format])` (a fresh error, not
`ErrUnsupportedImageFormat`), and makes no native call: the trace and the package
state are unchanged. -/
theorem SaveBuffer_unsupported (c : CHeader) (n : Native) (imageRef : ImageRef)
    (p : ExportParams) (w : World) (hf : p.Format ≠ ImageTypeUnknown c)
    (hs : isTypeSupported w.supportedImageTypes p.Format = false) :
    (SaveBuffer c n imageRef p w).1 =
      (none, some (.Errorf "cannot save to %#v" [.str ((imageTypes c).get p.Format "")])) ∧
    (SaveBuffer c n imageRef p w).1.2 ≠ some .ErrUnsupportedImageFormat ∧
    (SaveBuffer c n imageRef p w).2.2 = w ∧
    (SaveBuffer c n imageRef p w).2.2.since w = [] := by
  have h : SaveBuffer c n imageRef p w =
      ((none, some (.Errorf "cannot save to %#v" [.str ((imageTypes c).get p.Format "")])),
        vipsPrepareForExport p, w) := by
    simp only [SaveBuffer, vipsPrepareForExport_eq]
    simp [hf, hs]
  rw [h]
  refine ⟨rfl, by simp, rfl, ?_⟩
  simp [World.since]

/-- The rejection of an unsupported format, at WEBP on a freshly loaded package. -/
theorem SaveBuffer_unsupported_witness :
    (SaveBuffer exampleHeader (constNative 0 none) (ImageRef.mk (some 1) 1 none)
      (ExportParams.mk 2 0 0 false false false) World.initial).1 =
      (none, some (.Errorf "cannot save to %#v"
        [.str ((imageTypes exampleHeader).get
          (ExportParams.mk 2 0 0 false false false).Format "")])) ∧
    (SaveBuffer exampleHeader (constNative 0 none) (ImageRef.mk (some 1) 1 none)
      (ExportParams.mk 2 0 0 false false false) World.initial).1.2 ≠
      some .ErrUnsupportedImageFormat ∧
    (SaveBuffer exampleHeader (constNative 0 none) (ImageRef.mk (some 1) 1 none)
      (ExportParams.mk 2 0 0 false false false) World.initial).2.2 = World.initial ∧
    (SaveBuffer exampleHeader (constNative 0 none) (ImageRef.mk (some 1) 1 none)
      (ExportParams.mk 2 0 0 false false false) World.initial).2.2.since World.initial = [] :=
  SaveBuffer_unsupported exampleHeader (constNative 0 none) (ImageRef.mk (some 1) 1 none)
    (ExportParams.mk 2 0 0 false false false) World.initial (by decide) (by decide)

/-! ## Resizing -/

theorem mathMin_ten (x : Float64) :
    mathMin x (.finite 10) =
      if Float64.le (.finite 10) x = true then .finite 10
      else if Float64.le x (.finite 10) = true then x else .NaN := by
  cases x with
  | NaN => simp [mathMin, Float64.le]
  | NegInf => simp [mathMin, Float64.le]
  | PosInf => simp [mathMin, Float64.le, Float64.lt]
  | finite q =>
    rcases lt_trichotomy q 10 with h | h | h
    · have h1 : ¬ (10 : ℚ) ≤ q := not_le.mpr h
      simp [mathMin, Float64.le, Float64.lt, h, h1, le_of_lt h]
    · subst h
      simp [mathMin, Float64.le, Float64.lt]
    · have h1 : ¬ q < 10 := not_lt.mpr (le_of_lt h)
      simp [mathMin, Float64.le, Float64.lt, h1, le_of_lt h]

theorem ResizeImage_congr (n : Native) (imageRef : ImageRef) (s v s' v' : Float64)
    (kernel : Int) (w : World)
    (hs : mathMin s maxScaleFactor = mathMin s' maxScaleFactor)
    (hv : mathMin v maxScaleFactor = mathMin v' maxScaleFactor) :
    ResizeImage n imageRef s v kernel w = ResizeImage n imageRef s' v' kernel w := by
  simp only [ResizeImage, hs, hv]

/-- C6: for every handle, kernel and pair of scale factors, `ResizeImage` makes exactly
one native resize call and passes it `math.Min(scale, 10)` and `math.Min(vscale, 10)`.
That minimum is 10 for a factor at or above 10 and the factor itself for a factor at
or below 10 (zero, negative and minus infinity included; a NaN stays a NaN). So a call
with both factors at or above 10, such as 50 and 50, is the same call, with the same
outcome, as the call with factors 10 and 10. -/
theorem ResizeImage_clamps (n : Native) (imageRef : ImageRef) (scale vscale : Float64)
    (kernel : Int) (w : World) :
    ((ResizeImage n imageRef scale vscale kernel w).2.2.since w).filter Event.isResize =
      [.resize_image imageRef.Image (mathMin scale (.finite 10)) (mathMin vscale (.finite 10))
        (cInt kernel)] ∧
    mathMin scale (.finite 10) =
      (if Float64.le (.finite 10) scale = true then .finite 10
        else if Float64.le scale (.finite 10) = true then scale else .NaN) ∧
    mathMin vscale (.finite 10) =
      (if Float64.le (.finite 10) vscale = true then .finite 10
        else if Float64.le vscale (.finite 10) = true then vscale else .NaN) ∧
    (Float64.le (.finite 10) scale = true ∧ Float64.le (.finite 10) vscale = true →
      ResizeImage n imageRef scale vscale kernel w =
        ResizeImage n imageRef (.finite 10) (.finite 10) kernel w) ∧
    ResizeImage n imageRef (.finite 50) (.finite 50) kernel w =
      ResizeImage n imageRef (.finite 10) (.finite 10) kernel w := by
  refine ⟨?_, mathMin_ten scale, mathMin_ten vscale, ?_, ?_⟩
  · simp only [ResizeImage, maxScaleFactor]
    split_ifs
    · rw [since_of_trace _ w [_, _, _, _, _, _]
        (by simp only [emit_trace, handleVipsError_trace, List.append_assoc]; rfl)]
      simp [Event.isResize]
    · rw [since_of_trace _ w [_, _]
        (by simp only [emit_trace, List.append_assoc]; rfl)]
      simp [Event.isResize]
  · rintro ⟨hs, hv⟩
    apply ResizeImage_congr
    · rw [maxScaleFactor, mathMin_ten, mathMin_ten, if_pos hs, if_pos (by simp [Float64.le])]
    · rw [maxScaleFactor, mathMin_ten, mathMin_ten, if_pos hv, if_pos (by simp [Float64.le])]
  · apply ResizeImage_congr <;>
      simp only [maxScaleFactor, mathMin_ten] <;> norm_num [Float64.le]

/-! ## Closing a handle -/

/-- C7, what the code does: `Close` (and so the finalizer) sets the native pointer and
the buffer reference of the handle to nil and makes no native call at all, on the first
call as on the later ones: the trace and the package state are unchanged, so the native
object of an open handle is released zero times, not once. A second `Close` leaves the
closed handle as it is. -/
theorem Close_releases_nothing (ref : ImageRef) (w : World) :
    (ref.Close w).1 = ImageRef.mk none ref.Format none ∧
    (ref.Close w).2 = w ∧
    ((ref.Close w).2.since w).filter Event.isRelease = [] ∧
    ((ref.Close w).1.Close (ref.Close w).2) = ref.Close w ∧
    finalizeImage ref w = ref.Close w ∧
    (((ImageRef.mk (some 1) 1 (some [0xFF, 0xD8, 0xFF])).Close World.initial).2.trace.count
      (.g_object_unref (some 1)) = 0) := by
  refine ⟨rfl, rfl, ?_, rfl, rfl, by decide⟩
  simp [ImageRef.Close, World.since]

/-! ## Starting the library -/

theorem emit_running (w : World) (e : Event) : (w.emit e).running = w.running := rfl

/-- C8, what the code does at version 9.0: a first `Startup` (the running flag is
false) panics with `Requires libvips version 8.3+` before any native call, whatever
the native side and the config, although 9.0 is not below 8.3. -/
theorem Startup_panics_at_9_0 (n : Native) (config : Option StartupConfig) :
    (Startup header90 n config World.initial).1 = .error "Requires libvips version 8.3+" ∧
    (Startup header90 n config World.initial).2.trace =
      [.Lock, .LockOSThread, .UnlockOSThread, .Unlock] ∧
    ¬ (header90.VIPS_MAJOR_VERSION < 8 ∨
      (header90.VIPS_MAJOR_VERSION = 8 ∧ header90.VIPS_MINOR_VERSION < 3)) := by
  refine ⟨rfl, rfl, by decide⟩

theorem Startup_running_eq (c : CHeader) (n : Native) (config : Option StartupConfig)
    (w : World) (h : w.running = true) :
    Startup c n config w = (.ok (), ((((w.emit .Lock).emit .LockOSThread).emit
      (.Print "warning libvips already started")).emit .UnlockOSThread).emit .Unlock) := by
  simp [Startup, Startup.body, emit_running, h]

theorem initTypes_running (c : CHeader) (n : Native) (w : World) :
    (initTypes c n w).running = w.running := by
  unfold initTypes
  split_ifs
  · rfl
  · simp [imageTypes, initTypes.step, freeCString, World.emit]

theorem configure_running (config : Option StartupConfig) (w : World) :
    (Startup.configure config w).running = w.running := by
  cases config with
  | none => rfl
  | some cfg =>
    simp only [Startup.configure]
    split_ifs <;> rfl

theorem Startup_ok_running (c : CHeader) (n : Native) (config : Option StartupConfig)
    (w : World) (h : (Startup c n config w).1 = .ok ()) :
    (Startup c n config w).2.running = true := by
  by_cases hr : w.running = true
  · rw [Startup_running_eq c n config w hr]
    exact hr
  · by_cases h1 : c.VIPS_MAJOR_VERSION < 8
    · simp [Startup, Startup.body, emit_running, hr, h1] at h
    · by_cases h2 : c.VIPS_MINOR_VERSION < 3
      · simp [Startup, Startup.body, emit_running, hr, h1, h2] at h
      · by_cases hi : n.vips_init ((((w.emit .Lock).emit .LockOSThread).emit
            (.CString "govips")).trace) "govips" = 0
        · simp [Startup, Startup.body, Startup.init, emit_running, hr, h1, h2, hi,
            freeCString, initTypes_running, configure_running]
        · simp [Startup, Startup.body, Startup.init, emit_running, hr, h1, h2, hi] at h

/-- Two calls in a row: after a `Startup` that returned, a second `Startup`, whatever its
config, returns too and adds to the trace only the locks and the warning. -/
theorem Startup_twice (c : CHeader) (n : Native) (config1 config2 : Option StartupConfig)
    (w : World) (h : (Startup c n config1 w).1 = .ok ()) :
    Startup c n config2 (Startup c n config1 w).2 =
      (.ok (), ((((((Startup c n config1 w).2.emit .Lock).emit .LockOSThread).emit
        (.Print "warning libvips already started")).emit .UnlockOSThread).emit .Unlock)) :=
  Startup_running_eq c n config2 _ (Startup_ok_running c n config1 w h)

/-- C9: a `Startup` call made when the running flag is true, whatever its config, does
not panic and only takes the locks, logs the warning and releases the locks: it makes
no native call (no configuration, no initialisation, no type probe) and leaves the
running flag, the once flag, the loader table and the support map unchanged. -/
theorem Startup_when_running (c : CHeader) (n : Native) (config : Option StartupConfig)
    (w : World) (h : w.running = true) :
    (Startup c n config w).1 = .ok () ∧
    (Startup c n config w).2.since w =
      [.Lock, .LockOSThread, .Print "warning libvips already started",
       .UnlockOSThread, .Unlock] ∧
    ((Startup c n config w).2.since w).filter Event.isNative = [] ∧
    (Startup c n config w).2.running = w.running ∧
    (Startup c n config w).2.once = w.once ∧
    (Startup c n config w).2.typeLoaders = w.typeLoaders ∧
    (Startup c n config w).2.supportedImageTypes = w.supportedImageTypes := by
  have hs := Startup_running_eq c n config w h
  have ht : (Startup c n config w).2.since w =
      [.Lock, .LockOSThread, .Print "warning libvips already started",
       .UnlockOSThread, .Unlock] := by
    rw [hs]
    exact since_of_trace _ w _ (by simp only [emit_trace, List.append_assoc]; rfl)
  refine ⟨by rw [hs], ht, ?_, by rw [hs]; rfl, by rw [hs]; rfl, by rw [hs]; rfl,
    by rw [hs]; rfl⟩
  rw [ht]
  rfl

/-- The no-op `Startup`, at a world whose running flag is set. -/
theorem Startup_when_running_witness :
    (Startup exampleHeader (constNative 0 none) none
      (World.mk true true [] [(1, true)] [])).1 = .ok () ∧
    (Startup exampleHeader (constNative 0 none) none
      (World.mk true true [] [(1, true)] [])).2.since (World.mk true true [] [(1, true)] []) =
      [.Lock, .LockOSThread, .Print "warning libvips already started",
       .UnlockOSThread, .Unlock] ∧
    ((Startup exampleHeader (constNative 0 none) none
      (World.mk true true [] [(1, true)] [])).2.since
        (World.mk true true [] [(1, true)] [])).filter Event.isNative = [] ∧
    (Startup exampleHeader (constNative 0 none) none
      (World.mk true true [] [(1, true)] [])).2.running =
      (World.mk true true [] [(1, true)] []).running ∧
    (Startup exampleHeader (constNative 0 none) none
      (World.mk true true [] [(1, true)] [])).2.once =
      (World.mk true true [] [(1, true)] []).once ∧
    (Startup exampleHeader (constNative 0 none) none
      (World.mk true true [] [(1, true)] [])).2.typeLoaders =
      (World.mk true true [] [(1, true)] []).typeLoaders ∧
    (Startup exampleHeader (constNative 0 none) none
      (World.mk true true [] [(1, true)] [])).2.supportedImageTypes =
      (World.mk true true [] [(1, true)] []).supportedImageTypes :=
  Startup_when_running exampleHeader (constNative 0 none) none
    (World.mk true true [] [(1, true)] []) rfl

/-- On a first `Startup` whose native initialisation succeeds, the code panics exactly
when the major version is below 8 or the minor version is below 3. -/
theorem Startup_panics_iff (c : CHeader) (n : Native) (config : Option StartupConfig)
    (w : World) (hr : w.running = false)
    (hi : n.vips_init (w.trace ++ [.Lock, .LockOSThread, .CString "govips"]) "govips" = 0) :
    (∃ e, (Startup c n config w).1 = .error e) ↔
      (c.VIPS_MAJOR_VERSION < 8 ∨ c.VIPS_MINOR_VERSION < 3) := by
  by_cases h1 : c.VIPS_MAJOR_VERSION < 8
  · simp [Startup, Startup.body, emit_running, hr, h1]
  · by_cases h2 : c.VIPS_MINOR_VERSION < 3
    · simp [Startup, Startup.body, emit_running, hr, h1, h2]
    · have hi' : n.vips_init ((((w.emit .Lock).emit .LockOSThread).emit
          (.CString "govips")).trace) "govips" = 0 := by
        simpa only [emit_trace, List.append_assoc, List.singleton_append] using hi
      simp [Startup, Startup.body, Startup.init, emit_running, hr, h1, h2, hi']

/-! ## Transforms -/

/-- C10, as stated, fails: when the native call fails after writing an object (here 7)
into the output pointer, the handle of each transform stays bound to the previous
object (here 1), not to what the native call wrote. -/
theorem transform_failure_keeps_previous :
    (constNative 1 (some 7)).extract_image_area [] (some 1) 0 0 5 5 = (1, some 7) ∧
    (ExtractImageArea (constNative 1 (some 7)) (ImageRef.mk (some 1) 1 none) 0 0 5 5
      World.initial).2.1.Image = some 1 ∧
    (ExtractImageArea (constNative 1 (some 7)) (ImageRef.mk (some 1) 1 none) 0 0 5 5
      World.initial).2.1.Image ≠ some 7 ∧
    (GravityImage (constNative 1 (some 7)) (ImageRef.mk (some 1) 1 none) 0 5 5 0
      .NaN .NaN .NaN World.initial).2.1.Image = some 1 ∧
    (ResizeImage (constNative 1 (some 7)) (ImageRef.mk (some 1) 1 none) .PosInf .PosInf 0
      World.initial).2.1.Image = some 1 := by
  decide

/-- C10, amended: for each transform (`ResizeImage`, `ExtractImageArea`, `GravityImage`)
and every handle, the previous native object is released exactly once, as the last
event of the call, whether the native call succeeds or fails. When the native call
succeeds the handle is bound to the object the native call wrote into the output
pointer; when it fails the translated error is returned and the handle is left as it
was, still bound to the previous (now released) object. -/
theorem transform_releases_previous_once (n : Native) (imageRef : ImageRef)
    (scale vscale : Float64) (kernel left top width height direction extend : Int)
    (red green blue : Float64) (w : World) :
    ((((ResizeImage n imageRef scale vscale kernel w).2.2.since w).filter Event.isRelease =
        [.g_object_unref imageRef.Image]) ∧
      ((ResizeImage n imageRef scale vscale kernel w).2.2.trace.getLast? =
        some (.g_object_unref imageRef.Image)) ∧
      (if (n.resize_image w.trace imageRef.Image (mathMin scale maxScaleFactor)
          (mathMin vscale maxScaleFactor) (cInt kernel)).1 = 0 then
        (ResizeImage n imageRef scale vscale kernel w).1 = none ∧
        (ResizeImage n imageRef scale vscale kernel w).2.1 =
          ImageRef.mk (n.resize_image w.trace imageRef.Image (mathMin scale maxScaleFactor)
            (mathMin vscale maxScaleFactor) (cInt kernel)).2 imageRef.Format imageRef.Buf
      else
        (∃ f a, (ResizeImage n imageRef scale vscale kernel w).1 = some (.Errorf f a)) ∧
        (ResizeImage n imageRef scale vscale kernel w).2.1 = imageRef)) ∧
    ((((ExtractImageArea n imageRef left top width height w).2.2.since w).filter
        Event.isRelease = [.g_object_unref imageRef.Image]) ∧
      ((ExtractImageArea n imageRef left top width height w).2.2.trace.getLast? =
        some (.g_object_unref imageRef.Image)) ∧
      (if (n.extract_image_area w.trace imageRef.Image (cInt left) (cInt top) (cInt width)
          (cInt height)).1 = 0 then
        (ExtractImageArea n imageRef left top width height w).1 = none ∧
        (ExtractImageArea n imageRef left top width height w).2.1 =
          ImageRef.mk (n.extract_image_area w.trace imageRef.Image (cInt left) (cInt top)
            (cInt width) (cInt height)).2 imageRef.Format imageRef.Buf
      else
        (∃ f a, (ExtractImageArea n imageRef left top width height w).1 =
          some (.Errorf f a)) ∧
        (ExtractImageArea n imageRef left top width height w).2.1 = imageRef)) ∧
    ((((GravityImage n imageRef direction width height extend red green blue w).2.2.since
        w).filter Event.isRelease = [.g_object_unref imageRef.Image]) ∧
      ((GravityImage n imageRef direction width height extend red green blue
        w).2.2.trace.getLast? = some (.g_object_unref imageRef.Image)) ∧
      (if (n.gravity_image w.trace imageRef.Image (cInt direction) (cInt width) (cInt height)
          (cInt extend) red green blue).1 = 0 then
        (GravityImage n imageRef direction width height extend red green blue w).1 = none ∧
        (GravityImage n imageRef direction width height extend red green blue w).2.1 =
          ImageRef.mk (n.gravity_image w.trace imageRef.Image (cInt direction) (cInt width)
            (cInt height) (cInt extend) red green blue).2 imageRef.Format imageRef.Buf
      else
        (∃ f a, (GravityImage n imageRef direction width height extend red green blue w).1 =
          some (.Errorf f a)) ∧
        (GravityImage n imageRef direction width height extend red green blue w).2.1 =
          imageRef)) := by
  refine ⟨?_, ?_, ?_⟩
  · by_cases h : (n.resize_image w.trace imageRef.Image (mathMin scale maxScaleFactor)
      (mathMin vscale maxScaleFactor) (cInt kernel)).1 = 0
    · simp only [ResizeImage, h, ne_eq, not_true_eq_false, if_false, if_true, and_self, and_true]
      refine ⟨?_, ?_⟩
      · rw [since_of_trace _ w [_, _]
          (by simp only [emit_trace, List.append_assoc]; rfl)]
        simp [Event.isRelease]
      · simp [emit_trace]
    · simp only [ResizeImage, h, ne_eq, not_false_eq_true, if_false, if_true, and_true]
      refine ⟨?_, ?_, ⟨_, _, congrArg some (handleVipsError_fst n _)⟩⟩
      · rw [since_of_trace _ w [_, _, _, _, _, _]
          (by simp only [emit_trace, handleVipsError_trace, List.append_assoc]; rfl)]
        simp [Event.isRelease]
      · simp [emit_trace]
  · by_cases h : (n.extract_image_area w.trace imageRef.Image (cInt left) (cInt top)
      (cInt width) (cInt height)).1 = 0
    · simp only [ExtractImageArea, h, ne_eq, not_true_eq_false, if_false, if_true, and_self, and_true]
      refine ⟨?_, ?_⟩
      · rw [since_of_trace _ w [_, _]
          (by simp only [emit_trace, List.append_assoc]; rfl)]
        simp [Event.isRelease]
      · simp [emit_trace]
    · simp only [ExtractImageArea, h, ne_eq, not_false_eq_true, if_false, if_true, and_true]
      refine ⟨?_, ?_, ⟨_, _, congrArg some (handleVipsError_fst n _)⟩⟩
      · rw [since_of_trace _ w [_, _, _, _, _, _]
          (by simp only [emit_trace, handleVipsError_trace, List.append_assoc]; rfl)]
        simp [Event.isRelease]
      · simp [emit_trace]
  · by_cases h : (n.gravity_image w.trace imageRef.Image (cInt direction) (cInt width)
      (cInt height) (cInt extend) red green blue).1 = 0
    · simp only [GravityImage, h, ne_eq, not_true_eq_false, if_false, if_true, and_self, and_true]
      refine ⟨?_, ?_⟩
      · rw [since_of_trace _ w [_, _]
          (by simp only [emit_trace, List.append_assoc]; rfl)]
        simp [Event.isRelease]
      · simp [emit_trace]
    · simp only [GravityImage, h, ne_eq, not_false_eq_true, if_false, if_true, and_true]
      refine ⟨?_, ?_, ⟨_, _, congrArg some (handleVipsError_fst n _)⟩⟩
      · rw [since_of_trace _ w [_, _, _, _, _, _]
          (by simp only [emit_trace, handleVipsError_trace, List.append_assoc]; rfl)]
        simp [Event.isRelease]
      · simp [emit_trace]

end Vips
